import Mathlib

/-!
Shallow embedding of the neocy Neo4j client library (index.js and
query-builder.js): the QueryBuilder fragment accumulator, the Transaction
two-phase execute/commit protocol over an abstract HTTP transport, and the
Neo4j.toProps property formatter, together with theorems about the
behaviour of these definitions.
-/

namespace Neocy

/-- JS whitespace: the characters matched by the regex character class \s
(space, tab, LF, CR, VT, FF, NBSP, and the Unicode space separators). -/
def isJsWs (c : Char) : Bool :=
  c.toNat = 32 || c.toNat = 9 || c.toNat = 10 || c.toNat = 13 ||
  c.toNat = 11 || c.toNat = 12 || c.toNat = 160 || c.toNat = 5760 ||
  (8192 ≤ c.toNat && c.toNat ≤ 8202) || c.toNat = 8232 || c.toNat = 8233 ||
  c.toNat = 8239 || c.toNat = 8287 || c.toNat = 12288 || c.toNat = 65279

/-- Emit the replacement for one maximal whitespace run, as the global
regex replace of \s\s+ by a single space does: a run of length at least
two becomes one space, a run of length one keeps its original character. -/
def collapseFlush (buf : List Char) : List Char :=
  match buf with
  | [] => []
  | [c] => [c]
  | _ => [' ']

/-- Scanner for the global replace of \s\s+ by one space: buf holds the
current (still open) whitespace run. -/
def collapseGo (buf : List Char) : List Char → List Char
  | [] => collapseFlush buf
  | c :: rest =>
    if isJsWs c then collapseGo (buf ++ [c]) rest
    else collapseFlush buf ++ c :: collapseGo [] rest

/-- Model of the source replace of the regex \s\s+ (global) by a single
space character. -/
def collapseWs (l : List Char) : List Char := collapseGo [] l

/-- Model of the source replace of the regex alternation CRLF, CR, LF, TAB
(global) by the empty string: every CR, LF and TAB character is removed. -/
def stripNlCrTab (l : List Char) : List Char :=
  l.filter (fun c => !(c.toNat = 10 || c.toNat = 13 || c.toNat = 9))

/-- Model of the JS String trim method: removes leading and trailing
whitespace characters. -/
def trimJs (l : List Char) : List Char :=
  ((l.dropWhile isJsWs).reverse.dropWhile isJsWs).reverse

/-- QueryBuilder (query-builder.js): holds the ordered list q of pushed
fragments. The element type is a parameter because JS arrays are untyped. -/
structure QueryBuilder (α : Type) where
  q : List α
deriving DecidableEq

/-- Argument shape accepted by QueryBuilder.add: either a single fragment
or an arbitrarily nested array of fragments. -/
inductive Fragment (α : Type) where
  | leaf : α → Fragment α
  | arr : List (Fragment α) → Fragment α

mutual

/-- QueryBuilder.add (query-builder.js add): if the argument is an array it
recurses over the elements in order (forEach), otherwise it pushes the
argument onto q. -/
def QueryBuilder.add (qb : QueryBuilder α) : Fragment α → QueryBuilder α
  | Fragment.leaf a => ⟨qb.q ++ [a]⟩
  | Fragment.arr l => QueryBuilder.addList qb l

/-- The forEach loop inside QueryBuilder.add: adds each element of the
array in order. -/
def QueryBuilder.addList (qb : QueryBuilder α) : List (Fragment α) → QueryBuilder α
  | [] => qb
  | e :: rest => QueryBuilder.addList (QueryBuilder.add qb e) rest

end

/-- QueryBuilder.toString (query-builder.js toString): join the fragments
with a single space, collapse whitespace runs, strip CR, LF and TAB, and
trim. -/
def QueryBuilder.toString (qb : QueryBuilder String) : String :=
  String.mk (trimJs (stripNlCrTab (collapseWs (String.intercalate " " qb.q).toList)))

/-- Method-call view of QueryBuilder.toString: the method reads this.q and
never assigns to it, so the post-state of the receiver is the pre-state,
paired with the returned string. -/
def QueryBuilder.toStringM (qb : QueryBuilder String) : QueryBuilder String × String :=
  (qb, QueryBuilder.toString qb)

mutual

/-- In-order list of the leaves of a nested fragment tree (the flat
ordered sequence the spec describes). -/
def leavesOf : Fragment α → List α
  | Fragment.leaf a => [a]
  | Fragment.arr l => leavesListOf l

/-- In-order leaves of a list of fragment trees. -/
def leavesListOf : List (Fragment α) → List α
  | [] => []
  | e :: rest => leavesOf e ++ leavesListOf rest

end

mutual

/-- add appends exactly the in-order leaves of its argument to q. -/
theorem add_leaves {α : Type} (qb : QueryBuilder α) (p : Fragment α) :
    QueryBuilder.add qb p = ⟨qb.q ++ leavesOf p⟩ := by
  match p with
  | Fragment.leaf a =>
    simp [QueryBuilder.add, leavesOf]
  | Fragment.arr l =>
    rw [QueryBuilder.add, leavesOf]
    exact addList_leaves qb l

/-- addList appends exactly the in-order leaves of the fragment list. -/
theorem addList_leaves {α : Type} (qb : QueryBuilder α) (l : List (Fragment α)) :
    QueryBuilder.addList qb l = ⟨qb.q ++ leavesListOf l⟩ := by
  match l with
  | [] =>
    simp [QueryBuilder.addList, leavesListOf]
  | e :: rest =>
    rw [QueryBuilder.addList, add_leaves qb e, leavesListOf]
    rw [addList_leaves ⟨qb.q ++ leavesOf e⟩ rest]
    simp [List.append_assoc]

end

/-- HTTP status constant HTTP_OK from index.js. -/
def HTTP_OK : Nat := 200

/-- HTTP status constant HTTP_CREATED from index.js. -/
def HTTP_CREATED : Nat := 201

/-- HTTP method of a request issued by the Transaction. -/
inductive Method where
  | post : Method
  | delete : Method
deriving DecidableEq

/-- One HTTP request as dispatched through fetch: target URL, method,
header list and optional body string. -/
structure Request where
  url : String
  method : Method
  headers : List (String × String)
  body : Option String
deriving DecidableEq

/-- The header object built at the top of Transaction.execute. -/
def requestHeaders (auth : String) : List (String × String) :=
  [("content-type", "application/json"),
   ("Accept", "application/json; charset=UTF-8"),
   ("Authorization", "Basic " ++ auth)]

/-- One accumulated statement entry: the rendered statement text paired
with its parameters (the parameter value is opaque to the library, so its
type is a parameter). -/
structure Statement (α : Type) where
  statement : String
  parameters : α
deriving DecidableEq

/-- Transaction state (index.js Transaction constructor): used flag, auth
string, endpoint URL and the accumulated statement list. -/
structure Transaction (α : Type) where
  used : Bool
  auth : String
  transactionUrl : String
  statements : List (Statement α)
deriving DecidableEq

/-- The Transaction constructor: used is false and statements is empty. -/
def newTransaction (α : Type) (transactionUrl auth : String) : Transaction α :=
  ⟨false, auth, transactionUrl, []⟩

/-- Hex digit character for JSON control-character escapes. -/
def hexDigitChar (n : Nat) : Char :=
  if n < 10 then Char.ofNat (48 + n) else Char.ofNat (87 + n)

/-- JSON.stringify escaping of one character inside a string literal. -/
def jsonEscapeChar (c : Char) : String :=
  if c = '"' then "\\\""
  else if c = '\\' then "\\\\"
  else if c.toNat = 10 then "\\n"
  else if c.toNat = 13 then "\\r"
  else if c.toNat = 9 then "\\t"
  else if c.toNat = 8 then "\\b"
  else if c.toNat = 12 then "\\f"
  else if c.toNat < 32 then
    "\\u00" ++ String.mk [hexDigitChar (c.toNat / 16), hexDigitChar (c.toNat % 16)]
  else String.singleton c

/-- JSON.stringify rendering of a string value, quotes included. -/
def jsonStr (s : String) : String :=
  "\"" ++ String.join (s.toList.map jsonEscapeChar) ++ "\""

/-- JSON.stringify of one statement entry, with the key order of the
object literal pushed by addQuery. ps models JSON.stringify on the opaque
parameters value. -/
def serializeStatement (ps : α → String) (s : Statement α) : String :=
  "\x7b" ++ jsonStr "statement" ++ ":" ++ jsonStr s.statement ++ "," ++
    jsonStr "parameters" ++ ":" ++ ps s.parameters ++ "\x7d"

/-- JSON.stringify of the request body object built in execute:
an object with the single key statements holding the statement array. -/
def serializeBody (ps : α → String) (stmts : List (Statement α)) : String :=
  "\x7b" ++ jsonStr "statements" ++ ":[" ++
    String.intercalate "," (stmts.map (serializeStatement ps)) ++ "]\x7d"

/-- One statement-level error entry of the response body. -/
structure ErrorEntry where
  code : String
  message : String
deriving DecidableEq

/-- Parsed JSON body of the first response: results (opaque to the
library, type parameter), the errors array and the commit URL. -/
structure TxBody (ρ : Type) where
  results : ρ
  errors : List ErrorEntry
  commit : String

/-- The first HTTP response as seen by execute: status code, status text
and the parsed JSON body. -/
structure HttpResponse (ρ : Type) where
  status : Nat
  statusText : String
  body : TxBody ρ

/-- A value thrown inside the promise chain: either an Error object (with
its message) or a plain string (the code throws json.errors[0].message,
which is a string). -/
inductive JsThrown where
  | errorObj : String → JsThrown
  | str : String → JsThrown

/-- JS String coercion of a thrown value, as used by the final
reject(new Error(err)): an Error object stringifies with an Error prefix,
a plain string stringifies to itself. -/
def stringOfThrown : JsThrown → String
  | JsThrown.errorObj m => "Error: " ++ m
  | JsThrown.str s => s

/-- Eventual outcome of the promise returned by execute. -/
inductive Outcome (ρ : Type) where
  | resolved : ρ → Outcome ρ
  | rejected : String → Outcome ρ

/-- One observable event of an execute run, in temporal order: a network
request handed to fetch, or the assignment used = true. -/
inductive Event where
  | netRequest : Request → Event
  | setUsed : Event
deriving DecidableEq

/-- The network requests of an event trace, in order. -/
def requestsOf (evs : List Event) : List Request :=
  evs.filterMap (fun e =>
    match e with
    | Event.netRequest r => some r
    | Event.setUsed => none)

/-- Result of a run of Transaction.execute: the post-state of the
Transaction object, the ordered event trace, and the settled outcome. -/
structure ExecResult (α ρ : Type) where
  post : Transaction α
  events : List Event
  outcome : Outcome ρ

/-- The response-dependent tail of execute (the then/catch chain of
index.js lines 80 to 111): given the first response and the status the
commit call would return, it yields the later events and the settled
outcome. On a status other than HTTP_OK and HTTP_CREATED it dispatches a
fire-and-forget DELETE to the endpoint and throws an Error carrying the
response status text; otherwise, a non-empty errors array throws the first
error message (a plain string); otherwise it records results, POSTs to the
commit URL, and resolves the recorded results on commit status HTTP_OK or
throws a commit-failed Error on any other commit status. Every thrown
value lands in the catch and is rejected as new Error(err). -/
def executeTail (transactionUrl : String) (headers : List (String × String))
    (res1 : HttpResponse ρ) (commitStatus : Nat) : List Event × Outcome ρ :=
  if res1.status ≠ HTTP_OK ∧ res1.status ≠ HTTP_CREATED then
    ([Event.netRequest ⟨transactionUrl, Method.delete, headers, none⟩],
     Outcome.rejected (stringOfThrown (JsThrown.errorObj res1.statusText)))
  else
    match res1.body.errors with
    | e :: _ => ([], Outcome.rejected (stringOfThrown (JsThrown.str e.message)))
    | [] =>
      ([Event.netRequest ⟨res1.body.commit, Method.post, headers, none⟩],
       if commitStatus = HTTP_OK then Outcome.resolved res1.body.results
       else Outcome.rejected (stringOfThrown (JsThrown.errorObj "commit failed")))

/-- Transaction.execute (index.js lines 65 to 114). The promise executor
runs synchronously: it builds the headers and the serialized body, hands
the first POST to fetch, registers the response handlers, and then, as its
last statement, assigns used = true; the response handlers run later. The
event trace therefore starts with the first POST dispatch, then setUsed,
then the response-dependent events of executeTail. ps models
JSON.stringify on the opaque parameters values, res1 is the first
response, commitStatus the status the commit call would return. -/
def Transaction.execute (t : Transaction α) (ps : α → String)
    (res1 : HttpResponse ρ) (commitStatus : Nat) : ExecResult α ρ :=
  let headers := requestHeaders t.auth
  let tail := executeTail t.transactionUrl headers res1 commitStatus
  { post := { t with used := true },
    events :=
      Event.netRequest ⟨t.transactionUrl, Method.post, headers,
        some (serializeBody ps t.statements)⟩ :: Event.setUsed :: tail.1,
    outcome := tail.2 }

/-- Result of a call to Transaction.addQuery: the post-state of the
Transaction, the thrown error message if any, and the network requests it
issues (none: the method touches no network). -/
structure AddQueryResult (α : Type) where
  post : Transaction α
  thrown : Option String
  requests : List Request
deriving DecidableEq

/-- Transaction.addQuery (index.js lines 123 to 132): if used is already
true it throws the reuse error before touching anything; otherwise it
pushes the rendered statement text paired with the parameters onto
statements. -/
def Transaction.addQuery (t : Transaction α) (queryBuilder : QueryBuilder String)
    (params : α) : AddQueryResult α :=
  if t.used then
    ⟨t, some "Can\x27t reuse transaction", []⟩
  else
    ⟨{ t with statements :=
        t.statements ++ [⟨QueryBuilder.toString queryBuilder, params⟩] }, none, []⟩

/-- The Bool test of the claim wording of C1: true when the setUsed event
precedes every network request event of the trace. -/
def usedSetBeforeAnyNetCall (evs : List Event) : Bool :=
  match evs.findIdx? (fun e =>
      match e with
      | Event.netRequest _ => true
      | Event.setUsed => false) with
  | none => true
  | some r =>
    match evs.findIdx? (fun e =>
        match e with
        | Event.setUsed => true
        | Event.netRequest _ => false) with
    | none => false
    | some u => decide (u < r)

/-- Substring test helper: leadsWith n h is true when n is an initial
segment of h. -/
def leadsWith : List Char → List Char → Bool
  | [], _ => true
  | _ :: _, [] => false
  | a :: as, b :: bs => a = b && leadsWith as bs

/-- Substring test on char lists. -/
def containsSubAux (n : List Char) : List Char → Bool
  | [] => leadsWith n []
  | h :: t => leadsWith n (h :: t) || containsSubAux n t

/-- containsSub needle hay is true when needle occurs inside hay. -/
def containsSub (needle hay : String) : Bool :=
  containsSubAux needle.toList hay.toList

/-- Building a transaction from a fresh one by a sequence of chained
addQuery calls, one per (query builder, parameters) pair, in order. -/
def buildTransaction (transactionUrl auth : String)
    (L : List (QueryBuilder String × α)) : Transaction α :=
  L.foldl (fun t qp => (t.addQuery qp.1 qp.2).post) (newTransaction α transactionUrl auth)

/-- Concrete parameter serializer for concrete runs: the parameters value
is carried already serialized as a string. -/
def psId : String → String := fun s => s

/-- Concrete statement fixture. -/
def sampleStatement : Statement String := ⟨"MATCH (u) RETURN u", "\x7b\x7d"⟩

/-- Concrete fresh-but-populated transaction fixture. -/
def sampleTransaction : Transaction String :=
  ⟨false, "bmVvNGo6cGFzcw==", "http://localhost:7474/db/data/transaction", [sampleStatement]⟩

/-- Concrete already-used transaction fixture. -/
def usedTransaction : Transaction String :=
  ⟨true, "bmVvNGo6cGFzcw==", "http://localhost:7474/db/data/transaction", []⟩

/-- Concrete error-free response body fixture. -/
def okBody : TxBody Nat :=
  ⟨7, [], "http://localhost:7474/db/data/transaction/11/commit"⟩

/-- Concrete 201 Created response fixture. -/
def createdResponse : HttpResponse Nat := ⟨201, "Created", okBody⟩

/-- Concrete 500 response fixture. -/
def serverErrorResponse : HttpResponse Nat := ⟨500, "Internal Server Error", okBody⟩

/-- Concrete 200 response fixture whose body carries one statement error. -/
def errorsResponse : HttpResponse Nat :=
  ⟨200, "OK",
   ⟨7, [⟨"Neo.ClientError.Statement.SyntaxError", "Invalid input"⟩],
    "http://localhost:7474/db/data/transaction/11/commit"⟩⟩

/-- Concrete list of (query builder, parameters) pairs. -/
def sampleQueries : List (QueryBuilder String × String) :=
  [(⟨["MATCH (u)"]⟩, "\x7b\x7d"), (⟨["  RETURN   u\n"]⟩, "\x7b\x7d")]

/-- JS runtime value, as far as Neo4j.toProps can observe one: string,
number (modelled on the integers the library formats exactly), boolean,
array, plain object, null or undefined. -/
inductive JsValue where
  | str : String → JsValue
  | num : Int → JsValue
  | boolean : Bool → JsValue
  | arr : List JsValue → JsValue
  | obj : JsValue
  | null : JsValue
  | undefined : JsValue

/-- The JS typeof operator on a JsValue: arrays, plain objects and null
all answer object; there is no runtime for which typeof answers array. -/
def typeof : JsValue → String
  | JsValue.str _ => "string"
  | JsValue.num _ => "number"
  | JsValue.boolean _ => "boolean"
  | JsValue.arr _ => "object"
  | JsValue.obj => "object"
  | JsValue.null => "object"
  | JsValue.undefined => "undefined"

mutual

/-- JS string coercion of a value, as performed by a template literal:
strings pass through, numbers and booleans print, arrays join their
elements with commas, objects print as object, null and undefined by
their names. -/
def jsToString : JsValue → String
  | JsValue.str s => s
  | JsValue.num n => ToString.toString n
  | JsValue.boolean b => if b then "true" else "false"
  | JsValue.arr es => jsToStringList es
  | JsValue.obj => "[object Object]"
  | JsValue.null => "null"
  | JsValue.undefined => "undefined"

/-- Comma join of the string coercions of the array elements. -/
def jsToStringList : List JsValue → String
  | [] => ""
  | [v] => jsToString v
  | v :: rest => jsToString v ++ "," ++ jsToStringList rest

end

namespace Neo4j

/-- One iteration of the forEach loop of Neo4j.toProps (index.js lines
220 to 232): branch on typeof of the value, push the rendered pair for the
string, number and boolean branches, push a bracket pair on the (dead)
array branch, and throw on anything else. -/
def toPropsStep (k : String) (v : JsValue) : Except String String :=
  if typeof v = "string" then Except.ok (k ++ ":\"" ++ jsToString v ++ "\"")
  else if typeof v = "number" then Except.ok (k ++ ":" ++ jsToString v)
  else if typeof v = "boolean" then Except.ok (k ++ ":" ++ jsToString v)
  else if typeof v = "array" then Except.ok (k ++ ":[]")
  else Except.error "property type not supported"

/-- The forEach loop of Neo4j.toProps over the (key, value) pairs of the
input object, in key order: collect the rendered pairs, a throw escapes
the whole loop. -/
def toPropsList : List (String × JsValue) → Except String (List String)
  | [] => Except.ok []
  | (k, v) :: rest =>
    match toPropsStep k v with
    | Except.error e => Except.error e
    | Except.ok s =>
      match toPropsList rest with
      | Except.error e => Except.error e
      | Except.ok l => Except.ok (s :: l)

/-- Neo4j.toProps (index.js lines 217 to 234): render every property and
join the rendered pairs with a comma and a space. -/
def toProps (props : List (String × JsValue)) : Except String String :=
  (toPropsList props).map (String.intercalate ", ")

end Neo4j

/-- Value classification of the claim wording: a value whose typeof is
string, number or boolean. -/
def supported (v : JsValue) : Bool :=
  typeof v = "string" || typeof v = "number" || typeof v = "boolean"

/-- Rendering of one supported property per the claim wording: key, colon,
then the value, double-quoted when it is a string. -/
def renderSupported (k : String) (v : JsValue) : String :=
  match v with
  | JsValue.str s => k ++ ":\"" ++ s ++ "\""
  | JsValue.num n => k ++ ":" ++ ToString.toString n
  | JsValue.boolean b => k ++ ":" ++ (if b then "true" else "false")
  | _ => ""

/-- Claim C7: toString joins the accumulated fragments with one space,
collapses whitespace runs to a single space, strips newline, carriage
return and tab, and trims; in particular on the fragments
MATCH (u) and RETURN u (with extra spaces and a trailing newline) it
yields the string MATCH (u) RETURN u. -/
theorem toString_whitespace_example :
    QueryBuilder.toString ⟨["MATCH (u)", "  RETURN   u\n"]⟩ = "MATCH (u) RETURN u" := by
  decide

/-- Claim C8: toString is a pure function of the accumulated fragment
list: the receiver is left unchanged, and calling it a second time with no
intervening append returns the identical string. -/
theorem toString_pure (qb : QueryBuilder String) :
    (QueryBuilder.toStringM qb).1 = qb ∧
    (QueryBuilder.toStringM (QueryBuilder.toStringM qb).1).2 = (QueryBuilder.toStringM qb).2 := by
  exact ⟨rfl, rfl⟩

/-- Claim C9: add flattens nested fragment sequences recursively in order:
adding the nested sequence of A and the sequence of B and C equals the
three sequential single-fragment adds of A, B, C, and in general adding any
nested fragment tree appends exactly its in-order leaves. -/
theorem add_flattens {α : Type} (qb : QueryBuilder α) (p : Fragment α) (a b c : α) :
    QueryBuilder.add qb
        (Fragment.arr [Fragment.leaf a, Fragment.arr [Fragment.leaf b, Fragment.leaf c]]) =
      QueryBuilder.add (QueryBuilder.add (QueryBuilder.add qb (Fragment.leaf a))
        (Fragment.leaf b)) (Fragment.leaf c) ∧
    QueryBuilder.add qb p = ⟨qb.q ++ leavesOf p⟩ := by
  constructor
  · rw [add_leaves, add_leaves, add_leaves, add_leaves]
    simp [leavesOf, leavesListOf, List.append_assoc]
  · exact add_leaves qb p

/-- Claim C1 counterexample: on a concrete run of execute, the first event
of the trace is the dispatch of the first POST through fetch and the
assignment used = true is only the second event, so the flag is not set
before the first network call is issued. -/
theorem execute_dispatch_precedes_setUsed :
    usedSetBeforeAnyNetCall
        (Transaction.execute sampleTransaction psId createdResponse 200).events = false ∧
    (Transaction.execute sampleTransaction psId createdResponse 200).events.get? 0 =
      some (Event.netRequest ⟨sampleTransaction.transactionUrl, Method.post,
        requestHeaders sampleTransaction.auth,
        some (serializeBody psId sampleTransaction.statements)⟩) ∧
    (Transaction.execute sampleTransaction psId createdResponse 200).events.get? 1 =
      some Event.setUsed := by
  exact ⟨by decide, rfl, rfl⟩

/-- Claim C1 (amended): used = true is assigned synchronously within the
same invocation of execute, immediately after the first POST is handed to
fetch and before any response-dependent step runs (it is event index 1 of
the trace, the first POST dispatch being event index 0), so the post-state
has used = true and any addQuery made after execute has begun is rejected
with the reuse error, leaving the state unchanged and issuing no request. -/
theorem execute_sets_used_synchronously {α ρ : Type} (t : Transaction α)
    (ps : α → String) (res1 : HttpResponse ρ) (cs : Nat)
    (qb : QueryBuilder String) (params : α) :
    (t.execute ps res1 cs).events.get? 0 =
      some (Event.netRequest ⟨t.transactionUrl, Method.post, requestHeaders t.auth,
        some (serializeBody ps t.statements)⟩) ∧
    (t.execute ps res1 cs).events.get? 1 = some Event.setUsed ∧
    (t.execute ps res1 cs).post.used = true ∧
    ((t.execute ps res1 cs).post.addQuery qb params) =
      ⟨(t.execute ps res1 cs).post, some "Can\x27t reuse transaction", []⟩ := by
  refine ⟨rfl, rfl, rfl, ?_⟩
  simp [Transaction.execute, Transaction.addQuery]

/-- Claim C2 counterexample: with a first response of status 500 and
status text Internal Server Error, execute rejects with the message
Error: Internal Server Error, which does not contain the phrase
query did not return OK or CREATED. -/
theorem transport_failure_message_counterexample :
    (Transaction.execute sampleTransaction psId serverErrorResponse 200).outcome =
      Outcome.rejected "Error: Internal Server Error" ∧
    containsSub "query did not return OK or CREATED" "Error: Internal Server Error" = false := by
  exact ⟨rfl, by decide⟩

/-- Claim C2 (amended): when the first response status is neither HTTP_OK
nor HTTP_CREATED, the run consists of exactly the initial POST and a
fire-and-forget DELETE to the original endpoint URL (so no commit URL is
ever called), and execute rejects with an error built from the response
status text. -/
theorem transport_failure_rollback {α ρ : Type} (t : Transaction α) (ps : α → String)
    (res1 : HttpResponse ρ) (cs : Nat)
    (h1 : res1.status ≠ HTTP_OK) (h2 : res1.status ≠ HTTP_CREATED) :
    requestsOf (t.execute ps res1 cs).events =
      [⟨t.transactionUrl, Method.post, requestHeaders t.auth,
        some (serializeBody ps t.statements)⟩,
       ⟨t.transactionUrl, Method.delete, requestHeaders t.auth, none⟩] ∧
    (t.execute ps res1 cs).outcome = Outcome.rejected ("Error: " ++ res1.statusText) := by
  have hc : res1.status ≠ HTTP_OK ∧ res1.status ≠ HTTP_CREATED := ⟨h1, h2⟩
  constructor <;>
    simp [Transaction.execute, executeTail, if_pos hc, requestsOf, stringOfThrown]

/-- Witness for the amended claim C2, at a concrete 500 response. -/
theorem transport_failure_rollback_witness :
    (serverErrorResponse.status ≠ HTTP_OK ∧ serverErrorResponse.status ≠ HTTP_CREATED) ∧
    (requestsOf (Transaction.execute sampleTransaction psId serverErrorResponse 200).events =
      [⟨sampleTransaction.transactionUrl, Method.post, requestHeaders sampleTransaction.auth,
        some (serializeBody psId sampleTransaction.statements)⟩,
       ⟨sampleTransaction.transactionUrl, Method.delete,
        requestHeaders sampleTransaction.auth, none⟩] ∧
     (Transaction.execute sampleTransaction psId serverErrorResponse 200).outcome =
       Outcome.rejected ("Error: " ++ serverErrorResponse.statusText)) :=
  ⟨⟨by decide, by decide⟩,
   transport_failure_rollback sampleTransaction psId serverErrorResponse 200
     (by decide) (by decide)⟩

/-- Claim C3: when the first response has status HTTP_OK or HTTP_CREATED
and a non-empty errors array, execute rejects with the message of the
first error entry, and no DELETE is issued on this path: the only request
of the run is the initial POST. -/
theorem statement_error_no_rollback {α ρ : Type} (t : Transaction α) (ps : α → String)
    (res1 : HttpResponse ρ) (cs : Nat) (e : ErrorEntry) (rest : List ErrorEntry)
    (h : res1.status = HTTP_OK ∨ res1.status = HTTP_CREATED)
    (he : res1.body.errors = e :: rest) :
    requestsOf (t.execute ps res1 cs).events =
      [⟨t.transactionUrl, Method.post, requestHeaders t.auth,
        some (serializeBody ps t.statements)⟩] ∧
    (t.execute ps res1 cs).outcome = Outcome.rejected e.message := by
  have hcond : ¬(res1.status ≠ HTTP_OK ∧ res1.status ≠ HTTP_CREATED) := by
    rcases h with h | h <;> simp [h]
  constructor <;>
    simp [Transaction.execute, executeTail, if_neg hcond, he, requestsOf, stringOfThrown]

/-- Witness for claim C3, at a concrete 200 response carrying one
statement error. -/
theorem statement_error_no_rollback_witness :
    (errorsResponse.status = HTTP_OK ∨ errorsResponse.status = HTTP_CREATED) ∧
    errorsResponse.body.errors =
      ⟨"Neo.ClientError.Statement.SyntaxError", "Invalid input"⟩ :: [] ∧
    (requestsOf (Transaction.execute sampleTransaction psId errorsResponse 200).events =
      [⟨sampleTransaction.transactionUrl, Method.post, requestHeaders sampleTransaction.auth,
        some (serializeBody psId sampleTransaction.statements)⟩] ∧
     (Transaction.execute sampleTransaction psId errorsResponse 200).outcome =
       Outcome.rejected "Invalid input") :=
  ⟨Or.inl rfl, rfl,
   statement_error_no_rollback sampleTransaction psId errorsResponse 200
     ⟨"Neo.ClientError.Statement.SyntaxError", "Invalid input"⟩ [] (Or.inl rfl) rfl⟩

/-- Claim C4 counterexample: on a successful first call whose commit call
returns 404, execute rejects with the message Error: commit failed, which
does not contain the phrase transaction commit failed. -/
theorem commit_failure_message_counterexample :
    (Transaction.execute sampleTransaction psId createdResponse 404).outcome =
      Outcome.rejected "Error: commit failed" ∧
    containsSub "transaction commit failed" "Error: commit failed" = false := by
  exact ⟨rfl, by decide⟩

/-- Claim C4 (amended): when the first response has status HTTP_OK or
HTTP_CREATED and an empty errors array, the run consists of the initial
POST followed by a POST to the server-supplied commit URL; a commit status
of HTTP_OK resolves with the recorded results of the first response, and
any other commit status rejects with the commit-failed error. -/
theorem commit_flow {α ρ : Type} (t : Transaction α) (ps : α → String)
    (res1 : HttpResponse ρ) (cs : Nat)
    (h : res1.status = HTTP_OK ∨ res1.status = HTTP_CREATED)
    (he : res1.body.errors = []) :
    requestsOf (t.execute ps res1 cs).events =
      [⟨t.transactionUrl, Method.post, requestHeaders t.auth,
        some (serializeBody ps t.statements)⟩,
       ⟨res1.body.commit, Method.post, requestHeaders t.auth, none⟩] ∧
    (cs = HTTP_OK → (t.execute ps res1 cs).outcome = Outcome.resolved res1.body.results) ∧
    (cs ≠ HTTP_OK → (t.execute ps res1 cs).outcome = Outcome.rejected "Error: commit failed") := by
  have hcond : ¬(res1.status ≠ HTTP_OK ∧ res1.status ≠ HTTP_CREATED) := by
    rcases h with h | h <;> simp [h]
  refine ⟨?_, ?_, ?_⟩
  · simp [Transaction.execute, executeTail, if_neg hcond, he, requestsOf]
  · intro hcs
    simp [Transaction.execute, executeTail, if_neg hcond, he, hcs, stringOfThrown]
  · intro hcs
    simp [Transaction.execute, executeTail, if_neg hcond, he, hcs, stringOfThrown]

/-- Witness for the amended claim C4: the resolving commit run at status
200 and the rejecting commit run at status 404, both at a concrete 201
first response. -/
theorem commit_flow_witness :
    (createdResponse.status = HTTP_OK ∨ createdResponse.status = HTTP_CREATED) ∧
    createdResponse.body.errors = [] ∧
    (Transaction.execute sampleTransaction psId createdResponse 200).outcome =
      Outcome.resolved createdResponse.body.results ∧
    (Transaction.execute sampleTransaction psId createdResponse 404).outcome =
      Outcome.rejected "Error: commit failed" := by
  refine ⟨Or.inr rfl, rfl, ?_, ?_⟩
  · exact (commit_flow sampleTransaction psId createdResponse 200 (Or.inr rfl) rfl).2.1 rfl
  · exact (commit_flow sampleTransaction psId createdResponse 404 (Or.inr rfl) rfl).2.2
      (by decide)

/-- Claim C5: once used is true (as it is on the post-state of every
execute run, whether that run resolved or rejected), addQuery fails
synchronously with the reuse error, leaves the whole state (in particular
the statement list) unchanged, and issues no network request. -/
theorem addQuery_after_use_rejected {α ρ : Type} (t u : Transaction α)
    (ps : α → String) (res1 : HttpResponse ρ) (cs : Nat)
    (qb : QueryBuilder String) (params : α) (h : u.used = true) :
    (u.addQuery qb params) = ⟨u, some "Can\x27t reuse transaction", []⟩ ∧
    ((t.execute ps res1 cs).post).used = true := by
  constructor
  · simp [Transaction.addQuery, h]
  · rfl

/-- Witness for claim C5, at a concrete used transaction. -/
theorem addQuery_after_use_rejected_witness :
    usedTransaction.used = true ∧
    (usedTransaction.addQuery ⟨["MATCH (n) RETURN n"]⟩ "\x7b\x7d") =
      ⟨usedTransaction, some "Can\x27t reuse transaction", []⟩ :=
  ⟨rfl,
   (addQuery_after_use_rejected usedTransaction usedTransaction psId serverErrorResponse 200
     ⟨["MATCH (n) RETURN n"]⟩ "\x7b\x7d" rfl).1⟩

/-- addQuery on an unused transaction appends one rendered statement;
folded over a list it appends the rendered statements in order. -/
theorem foldl_addQuery {α : Type} (L : List (QueryBuilder String × α))
    (t : Transaction α) (h : t.used = false) :
    L.foldl (fun t qp => (t.addQuery qp.1 qp.2).post) t =
      { t with statements :=
          t.statements ++ L.map (fun qp => ⟨QueryBuilder.toString qp.1, qp.2⟩) } := by
  induction L generalizing t with
  | nil => simp
  | cons qp rest ih =>
    rw [List.foldl_cons]
    have hstep : (t.addQuery qp.1 qp.2).post =
        { t with statements := t.statements ++ [⟨QueryBuilder.toString qp.1, qp.2⟩] } := by
      simp [Transaction.addQuery, h]
    rw [hstep,
      ih { t with statements := t.statements ++ [⟨QueryBuilder.toString qp.1, qp.2⟩] } h]
    simp [List.append_assoc]

/-- Claim C6: for a transaction built from a fresh one by a non-empty
sequence of addQuery calls, the body serialized by execute for the first
POST is the statements object whose entries appear in exactly the append
order, each entry pairing the rendered statement text with its
parameters. -/
theorem execute_body_order {α ρ : Type} (transactionUrl auth : String)
    (L : List (QueryBuilder String × α)) (ps : α → String)
    (res1 : HttpResponse ρ) (cs : Nat) (_h : L ≠ []) :
    ((buildTransaction transactionUrl auth L).execute ps res1 cs).events.get? 0 =
      some (Event.netRequest ⟨transactionUrl, Method.post, requestHeaders auth,
        some (serializeBody ps
          (L.map (fun qp => ⟨QueryBuilder.toString qp.1, qp.2⟩)))⟩) := by
  rw [buildTransaction, foldl_addQuery L (newTransaction α transactionUrl auth) rfl]
  rfl

/-- Witness for claim C6, at a concrete two-statement append sequence. -/
theorem execute_body_order_witness :
    sampleQueries ≠ [] ∧
    ((buildTransaction "http://localhost:7474/db/data/transaction" "bmVvNGo6cGFzcw=="
        sampleQueries).execute psId createdResponse 200).events.get? 0 =
      some (Event.netRequest ⟨"http://localhost:7474/db/data/transaction", Method.post,
        requestHeaders "bmVvNGo6cGFzcw==",
        some (serializeBody psId
          (sampleQueries.map (fun qp => ⟨QueryBuilder.toString qp.1, qp.2⟩)))⟩) :=
  ⟨by decide,
   execute_body_order "http://localhost:7474/db/data/transaction" "bmVvNGo6cGFzcw=="
     sampleQueries psId createdResponse 200 (by decide)⟩

/-- A value of supported typeof renders through the loop body as the
claim describes. -/
theorem toPropsStep_supported (k : String) (v : JsValue) (h : supported v = true) :
    Neo4j.toPropsStep k v = Except.ok (renderSupported k v) := by
  cases v with
  | str s => rfl
  | num n => rfl
  | boolean b => rfl
  | arr es => exact Bool.noConfusion h
  | obj => exact Bool.noConfusion h
  | null => exact Bool.noConfusion h
  | undefined => exact Bool.noConfusion h

/-- A value of any other typeof, arrays included, makes the loop body
throw: the array branch compares typeof to the string array, which typeof
never returns. -/
theorem toPropsStep_unsupported (k : String) (v : JsValue) (h : supported v = false) :
    Neo4j.toPropsStep k v = Except.error "property type not supported" := by
  cases v with
  | str s => exact Bool.noConfusion h
  | num n => exact Bool.noConfusion h
  | boolean b => exact Bool.noConfusion h
  | arr es => rfl
  | obj => rfl
  | null => rfl
  | undefined => rfl

/-- When every value is supported, the loop collects exactly the rendered
pairs in key order. -/
theorem toPropsList_ok (props : List (String × JsValue))
    (h : ∀ p ∈ props, supported p.2 = true) :
    Neo4j.toPropsList props =
      Except.ok (props.map (fun p => renderSupported p.1 p.2)) := by
  induction props with
  | nil => rfl
  | cons q rest ih =>
    obtain ⟨k, v⟩ := q
    have hv : supported v = true := h (k, v) (List.mem_cons_self _ _)
    have hrest : ∀ p ∈ rest, supported p.2 = true :=
      fun p hp => h p (List.mem_cons_of_mem _ hp)
    simp [Neo4j.toPropsList, toPropsStep_supported k v hv, ih hrest]

/-- When any value of the list is unsupported, the loop throws the
property-type-not-supported error. -/
theorem toPropsList_err (props : List (String × JsValue)) (p : String × JsValue)
    (hp : p ∈ props) (h : supported p.2 = false) :
    Neo4j.toPropsList props = Except.error "property type not supported" := by
  induction props with
  | nil => cases hp
  | cons q rest ih =>
    obtain ⟨k, v⟩ := q
    rcases List.mem_cons.mp hp with rfl | hmem
    · simp [Neo4j.toPropsList, toPropsStep_unsupported k v h]
    · by_cases hs : supported v = true
      · simp [Neo4j.toPropsList, toPropsStep_supported k v hs, ih hmem]
      · have hv : supported v = false := by simpa using hs
        simp [Neo4j.toPropsList, toPropsStep_unsupported k v hv]

/-- Claim C10: every property whose value has typeof string, number or
boolean is rendered as a key colon value pair (strings double-quoted) and
the pairs are joined by comma-space; any property of any other value type
makes toProps throw the property-type-not-supported error; in particular
every array value is of that unsupported kind, since typeof of an array is
object, so the array branch of the source can never be taken. -/
theorem toProps_characterization :
    (∀ props : List (String × JsValue), (∀ p ∈ props, supported p.2 = true) →
      Neo4j.toProps props =
        Except.ok (String.intercalate ", "
          (props.map (fun p => renderSupported p.1 p.2)))) ∧
    (∀ (props : List (String × JsValue)) (p : String × JsValue), p ∈ props →
      supported p.2 = false →
      Neo4j.toProps props = Except.error "property type not supported") ∧
    (∀ es : List JsValue, supported (JsValue.arr es) = false) := by
  refine ⟨?_, ?_, ?_⟩
  · intro props h
    simp [Neo4j.toProps, toPropsList_ok props h, Except.map]
  · intro props p hp h
    simp [Neo4j.toProps, toPropsList_err props p hp h, Except.map]
  · intro es
    rfl

/-- Witness for claim C10: a concrete object of one string, one number
and one boolean property renders as the comma-space join of the pairs, and
a concrete object with one array-valued property throws. -/
theorem toProps_characterization_witness :
    Neo4j.toProps [("name", JsValue.str "Ada"), ("age", JsValue.num 36),
        ("vip", JsValue.boolean true)] =
      Except.ok "name:\"Ada\", age:36, vip:true" ∧
    Neo4j.toProps [("tags", JsValue.arr [JsValue.str "x"])] =
      Except.error "property type not supported" := by
  constructor
  · have h := toProps_characterization.1
      [("name", JsValue.str "Ada"), ("age", JsValue.num 36), ("vip", JsValue.boolean true)]
      (by decide)
    exact h.trans rfl
  · exact toProps_characterization.2.1 _ ("tags", JsValue.arr [JsValue.str "x"])
      (List.mem_singleton.mpr rfl) rfl

end Neocy
